import Mathlib

/-!
Verification of the md_generator repository: a Keysight B2901/B2902 SMU driver
(keysight_smu.py) and a markdown-table utility (md_utils.py).

The Python code is shallowly embedded: pure string manipulation is modelled on
Lean String / List Char; the visa session is modelled as an explicit state
record holding the commands sent, the log messages emitted, the sleeps
performed and the pending query responses; Python exceptions are modelled by
Except String.  Python string operations are embedded at the character-list
level (Python strings are sequences of code points), so that every definition
is executable by the kernel.
-/

/-- Embedding of the Python string comparison `a < b` (lexicographic on code
points, the shorter string smaller when one is a proper leading segment of the
other), on the character lists underlying the strings. -/
def pyStrLtB : List Char → List Char → Bool
  | [], [] => false
  | [], _ :: _ => true
  | _ :: _, [] => false
  | a :: as, b :: bs => if a < b then true else if b < a then false else pyStrLtB as bs

/-- Embedding of Python `int(s)` on its all-digit domain (the calibration
dates the driver reads are decimal digit strings): fold the decimal digits. -/
def strToNat (l : List Char) : Nat :=
  l.foldl (fun n c => n * 10 + (c.toNat - 48)) 0

namespace KeysightSMU

/-- `KeysightSMU.err_check` (keysight_smu.py lines 387-393): returns `False`
when the status text is the newline-terminated sentinel `"+0\n"`, otherwise
raises `ValueError(f"SCPI error {stat}  {id}")`.  A raised exception is
modelled as `Except.error` carrying the exception message. -/
def err_check (stat : String) (id : String) : Except String Bool :=
  if stat = "+0\n" then Except.ok false
  else Except.error ("SCPI error " ++ stat ++ "  " ++ id)

/-- State of the visa session as observed by the driver: the commands written
or queried over the channel, the log messages emitted, the sleeps performed,
and the replies the instrument will return to the pending queries, consumed in
order. -/
structure Sess where
  sent : List String
  logs : List String
  sleeps : List ℚ
  responses : List String

/-- Driver computations: state passing over `Sess` with Python exceptions as
`Except String`. -/
abbrev SessM (α : Type) : Type := StateT Sess (Except String) α

/-- `self._session.write(cmd)`: record the command on the channel. -/
def swrite (cmd : String) : SessM Unit := fun s =>
  Except.ok ((), { s with sent := s.sent ++ [cmd] })

/-- `self._session.query(cmd)`: record the command on the channel and consume
the next pending instrument reply (empty reply when none is pending). -/
def squery (cmd : String) : SessM String := fun s =>
  match s.responses with
  | [] => Except.ok ("", { s with sent := s.sent ++ [cmd] })
  | r :: rs => Except.ok (r, { s with sent := s.sent ++ [cmd], responses := rs })

/-- `log.error` / `log.info`: record a log message; no channel traffic. -/
def slog (msg : String) : SessM Unit := fun s =>
  Except.ok ((), { s with logs := s.logs ++ [msg] })

/-- `time.sleep(t)`: record the delay. -/
def ssleep (t : ℚ) : SessM Unit := fun s =>
  Except.ok ((), { s with sleeps := s.sleeps ++ [t] })

/-- `self.err_check(...)` lifted into the session computation. -/
def err_checkM (stat id : String) : SessM Bool := fun s =>
  match err_check stat id with
  | Except.ok b => Except.ok (b, s)
  | Except.error e => Except.error e

/-- `KeysightSMU._svmi` (keysight_smu.py lines 147-182).  `channel` is the
string form `str(channel)` of the channel argument; `volts` and `i_limit` are
the decimal renderings `f"{volts}"`, `f"{i_limit}"` of the numeric arguments;
`pf` abstracts Python `float(...)` parsing of one reply token (`none` models a
parse failure, whose ValueError text starts with
"could not convert string to float").  On an invalid channel the source logs
"Invalid SMU Channel" and falls through, returning `None`. -/
def _svmi {α : Type} (channel volts i_limit : String) (settle : ℚ)
    (pf : String → Option α) : SessM (Option (List α)) :=
  if channel = "1" ∨ channel = "2" then
    tryCatch
      (do
        swrite (":SENS" ++ channel ++ ":CURR:PROT " ++ i_limit)
        swrite (":SENS" ++ channel ++ ":REM OFF")
        swrite (":SENS" ++ channel ++ ":FUNC:ON \"VOLT\",\"CURR\"")
        swrite (":SOUR" ++ channel ++ ":VOLT:LEV:IMM " ++ volts)
        let e1 ← squery ":SYST:ERR:CODE:ALL?"
        let _ ← err_checkM e1 ""
        swrite (":SOUR" ++ channel ++ ":FUNC:MODE VOLT")
        swrite (":SOUR" ++ channel ++ ":FUNC:SHAP DC")
        swrite (":SOUR" ++ channel ++ ":VOLT:MODE FIX")
        let e2 ← squery ":SYST:ERR:CODE:ALL?"
        let _ ← err_checkM e2 ""
        swrite (":SENS" ++ channel ++ ":CURR:DC:NPLC 5")
        swrite (":OUTP" ++ channel ++ ":STAT ON")
        let _frmEl ← squery ":FORM:ELEM:SENS?"
        let e3 ← squery ":SYST:ERR:CODE:ALL?"
        let _ ← err_checkM e3 ""
        swrite (":INIT:IMM:ACQ (@" ++ channel ++ ")")
        ssleep settle
        let e4 ← squery ":SYST:ERR:CODE:ALL?"
        let _ ← err_checkM e4 ""
        let measureds ← squery (":SENS" ++ channel ++ ":DATA?")
        let vals ← (measureds.splitOn ",").mapM (fun x =>
          match pf x with
          | some v => pure v
          | none => throw ("could not convert string to float: " ++ x))
        pure (some vals))
      (fun ex => throw ("ERROR: " ++ ex))
  else do
    slog "Invalid SMU Channel"
    pure none

/-- `KeysightSMU._read_check_caldate` (keysight_smu.py lines 127-135):
`compStr = str(int(calibration_expiration))`, compared with the current date
string by Python string `<`; the current date string
(`datetime...strftime("%Y%m%d")`) is passed in as the parameter `today`.
Returns the resulting `calStatus` flag. -/
def _read_check_caldate (calibration_expiration today : String) : Bool :=
  let compStr := Nat.repr (strToNat calibration_expiration.data)
  if pyStrLtB compStr.data today.data then false else true

/-- The reshape step of `KeysightSMU.two_channel_qst` (keysight_smu.py lines
379-380): `np.array(...).reshape((4, len // 4), order=F)`.  A Fortran-order
reshape of a flat vector into 4 rows places flat element `t + 4 * j` at row
`t`, column `j`.  The element type is a parameter: the reshape is independent
of the float parsing that precedes it. -/
def two_channel_qst_reshape {α : Type} [Inhabited α] (float_data : List α) :
    List (List α) :=
  (List.range 4).map fun t =>
    (List.range (float_data.length / 4)).map fun j =>
      float_data.getD (t + 4 * j) default

/-- `KeysightSMU.close` (keysight_smu.py lines 104-108): if `self._session`
is not `None`, close it and set it to `None`; otherwise do nothing.  The
returned pair is the new `_session` attribute and the list of sessions
released by this call. -/
def close {σ : Type} : Option σ → Option σ × List σ
  | some sess => (none, [sess])
  | none => (none, [])

/-- Outcome of one call to `KeysightSMU.open` (keysight_smu.py lines 64-102):
whether an exception propagates to the caller, how many reset/identity
attempts were made, the retry sleeps performed, and the failure log messages
emitted. -/
structure OpenResult where
  raisesToCaller : Bool
  idn_attempts : Nat
  sleeps : List ℚ
  logs : List String

/-- Control flow of `KeysightSMU.open` (keysight_smu.py lines 64-102) as a
function of which steps succeed.  `connect_ok` is the session establishment
(resource manager, address lookup, open_resource); `first_idn_ok` and
`retry_idn_ok` are the two reset/identity attempts.  When session
establishment fails the outer handler logs and re-raises; when the first
identity attempt fails the inner handler sleeps `retry_delay` and retries
once; when the retry also fails the second inner handler only logs
"Unable to get Keysight serial number" and the function returns normally. -/
def openModel (connect_ok first_idn_ok retry_idn_ok : Bool)
    (retry_delay : ℚ) : OpenResult :=
  if connect_ok = false then
    { raisesToCaller := true, idn_attempts := 0, sleeps := [],
      logs := ["Error connecting to SMU - check SMU power, network connection, and serial number"] }
  else if first_idn_ok then
    { raisesToCaller := false, idn_attempts := 1, sleeps := [], logs := [] }
  else if retry_idn_ok then
    { raisesToCaller := false, idn_attempts := 2, sleeps := [retry_delay], logs := [] }
  else
    { raisesToCaller := false, idn_attempts := 2, sleeps := [retry_delay],
      logs := ["Unable to get Keysight serial number"] }

end KeysightSMU

namespace MockKeysightSMU

/-- `MockKeysightSMU._svmi` (keysight_smu.py lines 417-424): constant. -/
def _svmi (channel : String) (volts iLimit settle : Float) : List Float :=
  let _ := channel; let _ := volts; let _ := iLimit; let _ := settle
  [0.0]

/-- `MockKeysightSMU.smu_meas` (lines 426-434): constant `(0.0, 0.0)`. -/
def smu_meas (channel : String) (settle : Float) : Float × Float :=
  let _ := channel; let _ := settle
  (0.0, 0.0)

/-- `MockKeysightSMU.source_dci` (lines 436-443): constant `0.0`. -/
def source_dci (channel : String) (amps v_comply : Float) : Float :=
  let _ := channel; let _ := amps; let _ := v_comply
  0.0

/-- `MockKeysightSMU.source_dcv` (lines 445-452): constant `0.0`. -/
def source_dcv (channel : String) (volts comply : Float) : Float :=
  let _ := channel; let _ := volts; let _ := comply
  0.0

/-- `MockKeysightSMU.initsv_vidaq` (lines 454-457): constant status string. -/
def initsv_vidaq (channel : String) (curr_range : Option Float)
    (four_wire : Bool) : String :=
  let _ := channel; let _ := curr_range; let _ := four_wire
  "Test STB"

/-- `MockKeysightSMU.fetch_vi` (lines 459-463): constant `([0.0], [0.0])`. -/
def fetch_vi (channel : String) : List Float × List Float :=
  let _ := channel
  ([0.0], [0.0])

/-- `MockKeysightSMU.err_check` (lines 465-467): returns `False` for every
status string, never raises. -/
def err_check (stat : String) (id : String) : Except String Bool :=
  let _ := stat; let _ := id
  Except.ok false

end MockKeysightSMU

/-- One row line of `mdTable_str` (md_utils.py lines 22-24): every cell
followed by a pipe. -/
def rowStr (row : List String) : String :=
  row.foldl (fun pstr cell => pstr ++ cell ++ "|") ""

/-- The dash segment of the separator row of `mdTable_str` (md_utils.py lines
28-30): for each header cell, one dash per character, concatenated with no
delimiter between cells. -/
def dashCells (row : List String) : String :=
  row.foldl (fun pstr cell => pstr ++ String.mk (List.replicate cell.length '-')) ""

/-- Python slice `pstr[0:-1]`: the string without its last character (the
empty string stays empty). -/
def dropLastChar (s : String) : String := String.mk s.data.dropLast

/-- The loop over the non-header rows of `mdTable_str` (md_utils.py lines
21-26 for `i_ > 0`): each row appends its pipe-stripped line plus newline to
the table string and its raw line (with trailing pipe) to the line list. -/
def mdRowsFold (rest : List (List String)) (init : String × List String) :
    String × List String :=
  rest.foldl
    (fun acc row => (acc.1 ++ dropLastChar (rowStr row) ++ "\n", acc.2 ++ [rowStr row]))
    init

/-- `mdTable_str` (md_utils.py lines 12-34).  The `line_lens` list computed by
the source is dead code (never read) and is omitted.  For an empty input both
loops run zero times and the initial `('', [])` is returned.  Otherwise the
header row is emitted, then the dash separator row (pipe-stripped in the table
string, with its trailing pipe in the line list), then the remaining rows. -/
def mdTable_str : List (List String) → String × List String
  | [] => ("", [])
  | header :: rest =>
      mdRowsFold rest
        (dropLastChar (rowStr header) ++ "\n" ++ dropLastChar (dashCells header ++ "|") ++ "\n",
         [rowStr header, dashCells header ++ "|"])

/-! ## Helper lemmas -/

/-- The embedded Python string comparison agrees with the mathematical
lexicographic order on character lists. -/
theorem pyStrLtB_iff : ∀ as bs : List Char, pyStrLtB as bs = true ↔ List.Lex (· < ·) as bs
  | [], [] => by
    constructor
    · intro h; exact absurd h (by simp [pyStrLtB])
    · intro h; cases h
  | [], _ :: _ => by
    constructor
    · intro _; exact List.Lex.nil
    · intro _; rfl
  | a :: as, [] => by
    constructor
    · intro h; simp [pyStrLtB] at h
    · intro h; cases h
  | a :: as, b :: bs => by
    rcases lt_trichotomy a b with hab | heq | hba
    · constructor
      · intro _; exact List.Lex.rel hab
      · intro _; simp [pyStrLtB, hab]
    · subst heq
      have hred : pyStrLtB (a :: as) (a :: bs) = pyStrLtB as bs := by
        simp [pyStrLtB]
      rw [hred, pyStrLtB_iff as bs]
      constructor
      · exact List.Lex.cons
      · intro h
        cases h with
        | rel h2 => exact absurd h2 (lt_irrefl a)
        | cons h2 => exact h2
    · have hab : ¬ a < b := fun h => lt_irrefl a (lt_trans h hba)
      constructor
      · intro h
        simp [pyStrLtB, hab, hba] at h
      · intro h
        cases h with
        | rel h2 => exact absurd h2 hab
        | cons h2 => exact absurd hba (lt_irrefl a)

/-- Unfolding of the dash-building loop of `dashCells`: it appends one dash
per character of each cell, over any accumulator. -/
theorem dashCells_go (row : List String) (acc : String) :
    (row.foldl (fun pstr cell => pstr ++ String.mk (List.replicate cell.length '-')) acc).data
      = acc.data ++ List.replicate ((row.map String.length).sum) '-' := by
  induction row generalizing acc with
  | nil => simp
  | cons c row ih =>
    simp only [List.foldl, List.map, List.sum_cons, ih, String.data_append,
      List.replicate_add, List.append_assoc]

/-- The separator dash segment is exactly one dash per header-cell
character. -/
theorem dashCells_data (row : List String) :
    (dashCells row).data = List.replicate ((row.map String.length).sum) '-' := by
  simpa using dashCells_go row ""

/-- Dropping the final character of a string that ends in a pipe gives back
the string before the pipe. -/
theorem dropLastChar_append_pipe (s : String) : dropLastChar (s ++ "|") = s := by
  show String.mk (s ++ "|").data.dropLast = s
  rw [String.data_append]
  show String.mk ((s.data ++ ['|']).dropLast) = s
  rw [List.dropLast_concat]

/-- The non-header loop only appends raw row lines to the line list. -/
theorem mdRowsFold_snd (rest : List (List String)) (init : String × List String) :
    (mdRowsFold rest init).2 = init.2 ++ rest.map rowStr := by
  induction rest generalizing init with
  | nil => simp [mdRowsFold]
  | cons r rest ih =>
    simp only [mdRowsFold, List.foldl, List.map] at ih ⊢
    rw [ih]
    simp

/-- The non-header loop only appends text after the initial table string. -/
theorem mdRowsFold_fst (rest : List (List String)) (init : String × List String) :
    ∃ t, (mdRowsFold rest init).1 = init.1 ++ t := by
  induction rest generalizing init with
  | nil => exact ⟨"", by simp [mdRowsFold]⟩
  | cons r rest ih =>
    obtain ⟨t, ht⟩ := ih (init.1 ++ dropLastChar (rowStr r) ++ "\n", init.2 ++ [rowStr r])
    exact ⟨dropLastChar (rowStr r) ++ "\n" ++ t, by
      simp only [mdRowsFold, List.foldl] at ht ⊢
      rw [ht]
      simp [String.append_assoc]⟩

/-! ## Claim theorems -/

/-- Claim C1, counterexample: on the bare string "+0" (without the newline
terminator the instrument reply carries) `err_check` raises a ValueError
instead of returning false, so the claim as stated is false. -/
theorem err_check_plus_zero_without_newline_raises :
    KeysightSMU.err_check "+0" "" = Except.error "SCPI error +0  " ∧
    KeysightSMU.err_check "+0" "" ≠ Except.ok false := by
  constructor
  · rfl
  · intro h
    rw [KeysightSMU.err_check] at h
    simp at h

/-- Claim C1 (amended): the no-error sentinel the fault check accepts is the
newline-terminated "+0\n"; for every tag, `err_check` on that sentinel
returns false and raises nothing. -/
theorem err_check_sentinel_returns_false :
    ∀ (id : String), KeysightSMU.err_check "+0\n" id = Except.ok false :=
  fun _ => rfl

/-- Claim C2, counterexample: the status string "+0\n" differs from the
sentinel "+0" named by the spec, yet `err_check` does not raise on it, so
"raises on every string other than +0" is false. -/
theorem err_check_newline_status_not_raising :
    ("+0\n" : String) ≠ "+0" ∧
    KeysightSMU.err_check "+0\n" "tag" = Except.ok false := by
  constructor
  · decide
  · rfl

/-- Claim C2 (amended): for every status string other than the
newline-terminated sentinel "+0\n", `err_check` raises a ValueError whose
message contains the original status string and the supplied tag. -/
theorem err_check_fault_raises_with_stat_and_tag (stat tag : String)
    (h : stat ≠ "+0\n") :
    ∃ msg, KeysightSMU.err_check stat tag = Except.error msg ∧
      (∃ p q, msg = p ++ stat ++ q) ∧ (∃ r, msg = r ++ tag) := by
  refine ⟨"SCPI error " ++ stat ++ "  " ++ tag, ?_,
    ⟨"SCPI error ", "  " ++ tag, ?_⟩, ⟨"SCPI error " ++ stat ++ "  ", rfl⟩⟩
  · simp [KeysightSMU.err_check, h]
  · simp [String.append_assoc]

/-- Claim C2 witness: a concrete fault status and tag. -/
theorem err_check_fault_raises_with_stat_and_tag_witness :
    ∃ msg, KeysightSMU.err_check "-113\n" "ini0" = Except.error msg ∧
      (∃ p q, msg = p ++ "-113\n" ++ q) ∧ (∃ r, msg = r ++ "ini0") :=
  err_check_fault_raises_with_stat_and_tag "-113\n" "ini0" (by decide)

/-- Claim C4, counterexample: when session establishment succeeds but both
reset/identity attempts fail, `open` performs the retry and then returns
normally after logging, instead of raising to the caller as the claim
states. -/
theorem openModel_double_failure_returns_normally :
    (KeysightSMU.openModel true false false 1).raisesToCaller = false ∧
    (KeysightSMU.openModel true false false 1).idn_attempts = 2 ∧
    (KeysightSMU.openModel true false false 1).logs =
      ["Unable to get Keysight serial number"] :=
  ⟨rfl, rfl, rfl⟩

/-- Claim C4 (amended): when the initial reset/identity attempt fails, `open`
waits `retry_delay` seconds and retries exactly once; if the retry also fails
it logs the failure and returns normally (no exception reaches the caller);
a connection error propagates to the caller only when establishing the
session itself fails. -/
theorem openModel_single_retry :
    ∀ (d : ℚ),
      (∀ b, KeysightSMU.openModel true true b d =
        { raisesToCaller := false, idn_attempts := 1, sleeps := [], logs := [] }) ∧
      (KeysightSMU.openModel true false true d =
        { raisesToCaller := false, idn_attempts := 2, sleeps := [d], logs := [] }) ∧
      (KeysightSMU.openModel true false false d =
        { raisesToCaller := false, idn_attempts := 2, sleeps := [d],
          logs := ["Unable to get Keysight serial number"] }) ∧
      (∀ a b, (KeysightSMU.openModel false a b d).raisesToCaller = true) := by
  intro d
  refine ⟨fun b => ?_, rfl, rfl, fun a b => rfl⟩
  cases b <;> rfl

/-- Claim C6: every operation of the mock session returns its fixed
documented constant for all argument values (in particular `err_check`
returns false and never raises, even on non-sentinel status strings); the
operations are functions of their arguments alone and touch no channel. -/
theorem mock_operations_return_constants :
    (∀ (channel : String) (volts iLimit settle : Float),
        MockKeysightSMU._svmi channel volts iLimit settle = [0.0]) ∧
    (∀ (channel : String) (settle : Float),
        MockKeysightSMU.smu_meas channel settle = (0.0, 0.0)) ∧
    (∀ (channel : String) (amps v_comply : Float),
        MockKeysightSMU.source_dci channel amps v_comply = 0.0) ∧
    (∀ (channel : String) (volts comply : Float),
        MockKeysightSMU.source_dcv channel volts comply = 0.0) ∧
    (∀ (channel : String) (curr_range : Option Float) (four_wire : Bool),
        MockKeysightSMU.initsv_vidaq channel curr_range four_wire = "Test STB") ∧
    (∀ (channel : String), MockKeysightSMU.fetch_vi channel = ([0.0], [0.0])) ∧
    (∀ (stat id : String), MockKeysightSMU.err_check stat id = Except.ok false) :=
  ⟨fun _ _ _ _ => rfl, fun _ _ => rfl, fun _ _ _ => rfl, fun _ _ _ => rfl,
   fun _ _ _ => rfl, fun _ => rfl, fun _ _ => rfl⟩

/-- Claim C8: `close` releases the session exactly when one is open, is a
no-op on a closed session, and composing a second `close` leaves the same
state as a single `close` while releasing nothing further. -/
theorem close_idempotent :
    (∀ (σ : Type) (sess : σ), KeysightSMU.close (some sess) = (none, [sess])) ∧
    (∀ (σ : Type), KeysightSMU.close (none : Option σ) = (none, [])) ∧
    (∀ (σ : Type) (st : Option σ),
        KeysightSMU.close (KeysightSMU.close st).1 = ((KeysightSMU.close st).1, [])) := by
  refine ⟨fun σ sess => rfl, fun σ => rfl, fun σ st => ?_⟩
  cases st <;> rfl

/-- Claim C9: on the empty matrix `mdTable_str` returns the pair of the empty
string and the empty line list. -/
theorem mdTable_str_empty : mdTable_str [] = ("", []) := rfl

/-- Claim C3, counterexample: on the flat response 0..7 (N = 2) the reshape
gives track t the positions t, t+4 (track index varying fastest), not the
consecutive block t*N .. t*N+N-1 the claim states. -/
theorem two_channel_qst_reshape_not_row_major :
    KeysightSMU.two_channel_qst_reshape ([0, 1, 2, 3, 4, 5, 6, 7] : List ℕ) =
      [[0, 4], [1, 5], [2, 6], [3, 7]] ∧
    KeysightSMU.two_channel_qst_reshape ([0, 1, 2, 3, 4, 5, 6, 7] : List ℕ) ≠
      [[0, 1], [2, 3], [4, 5], [6, 7]] := by
  constructor <;> decide

/-- Claim C3 (amended): for a flat response of 4·N values the reshape yields
exactly 4 tracks of length N in Fortran (column-major) order with the track
index varying fastest: track t holds the flat positions t, t+4, ...,
t+4·(N-1). -/
theorem two_channel_qst_reshape_column_major {α : Type} [Inhabited α]
    (flat : List α) (N : ℕ) (h : flat.length = 4 * N) :
    (KeysightSMU.two_channel_qst_reshape flat).length = 4 ∧
    (∀ t, t < 4 → ((KeysightSMU.two_channel_qst_reshape flat).getD t []).length = N) ∧
    (∀ t j, t < 4 → j < N →
      ((KeysightSMU.two_channel_qst_reshape flat).getD t []).getD j default =
        flat.getD (t + 4 * j) default) := by
  refine ⟨by simp [KeysightSMU.two_channel_qst_reshape], ?_, ?_⟩
  · intro t ht
    unfold KeysightSMU.two_channel_qst_reshape
    rw [List.getD_eq_getElem?_getD]
    simp [List.getElem?_map, List.getElem?_range, ht, h,
      Nat.mul_div_cancel_left]
  · intro t j ht hj
    unfold KeysightSMU.two_channel_qst_reshape
    have hn : flat.length / 4 = N := by omega
    simp [List.getD_eq_getElem?_getD, List.getElem?_map, List.getElem?_range,
      ht, hj, hn]

/-- Claim C3 witness: the amended reshape property at the concrete flat
response 0..7 with N = 2. -/
theorem two_channel_qst_reshape_column_major_witness :
    (KeysightSMU.two_channel_qst_reshape ([0, 1, 2, 3, 4, 5, 6, 7] : List ℕ)).length = 4 ∧
    ((KeysightSMU.two_channel_qst_reshape ([0, 1, 2, 3, 4, 5, 6, 7] : List ℕ)).getD 1 []).getD 1 0 =
      ([0, 1, 2, 3, 4, 5, 6, 7] : List ℕ).getD (1 + 4 * 1) 0 := by
  have h := two_channel_qst_reshape_column_major ([0, 1, 2, 3, 4, 5, 6, 7] : List ℕ) 2 (by decide)
  exact ⟨h.1, h.2.2 1 1 (by decide) (by decide)⟩

/-- Claim C5: for a calibration-expiration string in canonical decimal form
(YYYYMMDD dates are such: `str(int(s)) = s`), the calibration status is valid
(true) exactly when the expiration string is lexicographically at least the
current date string, and invalid (false) exactly when it is lexicographically
below it. -/
theorem read_check_caldate_valid_iff (cal today : String)
    (h : Nat.repr (strToNat cal.data) = cal) :
    (KeysightSMU._read_check_caldate cal today = true ↔
      ¬ List.Lex (· < ·) cal.data today.data) ∧
    (KeysightSMU._read_check_caldate cal today = false ↔
      List.Lex (· < ·) cal.data today.data) := by
  unfold KeysightSMU._read_check_caldate
  rw [h]
  have hiff := pyStrLtB_iff cal.data today.data
  by_cases hb : pyStrLtB cal.data today.data = true
  · rw [if_pos hb]
    have hlex := hiff.1 hb
    constructor
    · constructor
      · intro hfalse; exact Bool.noConfusion hfalse
      · intro hnot; exact absurd hlex hnot
    · exact ⟨fun _ => hlex, fun _ => rfl⟩
  · rw [if_neg hb]
    have hnlex : ¬ List.Lex (· < ·) cal.data today.data := fun hl => hb (hiff.2 hl)
    constructor
    · exact ⟨fun _ => hnlex, fun _ => rfl⟩
    · constructor
      · intro hfalse; exact Bool.noConfusion hfalse
      · intro hlex; exact absurd hlex hnlex

/-- Claim C5 witness: expiration "20210112" is valid on "20210101" and
invalid on "20210201", exactly as the spec example states. -/
theorem read_check_caldate_valid_iff_witness :
    KeysightSMU._read_check_caldate "20210112" "20210101" = true ∧
    KeysightSMU._read_check_caldate "20210112" "20210201" = false := by
  have h : Nat.repr (strToNat ("20210112" : String).data) = "20210112" := by decide
  constructor
  · exact (read_check_caldate_valid_iff "20210112" "20210101" h).1.mpr
      (fun hl => absurd ((pyStrLtB_iff _ _).2 hl) (by decide))
  · exact (read_check_caldate_valid_iff "20210112" "20210201" h).2.mpr
      ((pyStrLtB_iff _ _).1 (by decide))

/-- Claim C7: for a non-empty rectangular matrix, the line list of
`mdTable_str` has one more entry than the matrix has rows; its entry at
index 1 (immediately after the header line) is the dash separator, whose dash
segment is one dash per header-cell character (so its length is the sum of
the header cell lengths); and in the table text the separator line appears
right after the header line as exactly that dash segment. -/
theorem mdTable_str_dash_row (header : List String) (rest : List (List String))
    (_hrect : ∀ row ∈ rest, row.length = header.length) :
    ((mdTable_str (header :: rest)).2.length = (header :: rest).length + 1) ∧
    ((mdTable_str (header :: rest)).2.getD 1 "" = dashCells header ++ "|") ∧
    ((dashCells header).data = List.replicate ((header.map String.length).sum) '-') ∧
    (∃ tailStr, (mdTable_str (header :: rest)).1 =
      dropLastChar (rowStr header) ++ "\n" ++ dashCells header ++ "\n" ++ tailStr) := by
  refine ⟨?_, ?_, dashCells_data header, ?_⟩
  · rw [show mdTable_str (header :: rest) = mdRowsFold rest
        (dropLastChar (rowStr header) ++ "\n" ++ dropLastChar (dashCells header ++ "|") ++ "\n",
         [rowStr header, dashCells header ++ "|"]) from rfl]
    rw [mdRowsFold_snd]
    simp
  · rw [show mdTable_str (header :: rest) = mdRowsFold rest
        (dropLastChar (rowStr header) ++ "\n" ++ dropLastChar (dashCells header ++ "|") ++ "\n",
         [rowStr header, dashCells header ++ "|"]) from rfl]
    rw [mdRowsFold_snd]
    rfl
  · obtain ⟨t, ht⟩ := mdRowsFold_fst rest
      (dropLastChar (rowStr header) ++ "\n" ++ dropLastChar (dashCells header ++ "|") ++ "\n",
       [rowStr header, dashCells header ++ "|"])
    refine ⟨t, ?_⟩
    rw [show mdTable_str (header :: rest) = mdRowsFold rest
        (dropLastChar (rowStr header) ++ "\n" ++ dropLastChar (dashCells header ++ "|") ++ "\n",
         [rowStr header, dashCells header ++ "|"]) from rfl]
    rw [ht]
    rw [dropLastChar_append_pipe]

/-- Claim C7 witness: the spec example rows. -/
theorem mdTable_str_dash_row_witness :
    (mdTable_str [["a", "bb"], ["ccc", "d"]]).2.length = 3 ∧
    (dashCells ["a", "bb"]).data = List.replicate 3 '-' := by
  have h := mdTable_str_dash_row ["a", "bb"] [["ccc", "d"]] (by simp)
  exact ⟨h.1, h.2.2.1.trans (by decide)⟩

/-- Claim C10: on a channel whose string form is neither "1" nor "2",
`_svmi` logs "Invalid SMU Channel" and returns None; it sends nothing over
the channel, sleeps never, and raises nothing. -/
theorem svmi_invalid_channel_no_write {α : Type} (channel volts i_limit : String)
    (settle : ℚ) (pf : String → Option α) (s : KeysightSMU.Sess)
    (h1 : channel ≠ "1") (h2 : channel ≠ "2") :
    KeysightSMU._svmi channel volts i_limit settle pf s =
      Except.ok (none, { s with logs := s.logs ++ ["Invalid SMU Channel"] }) := by
  simp [KeysightSMU._svmi, h1, h2, KeysightSMU.slog, bind, StateT.bind, pure,
    StateT.pure, Except.bind, Except.pure]

/-- Claim C10 witness: channel "3" on a fresh session state. -/
theorem svmi_invalid_channel_no_write_witness :
    KeysightSMU._svmi (α := ℕ) "3" "1.5" "0.1" 0 (fun _ => none) ⟨[], [], [], []⟩ =
      Except.ok (none, ⟨[], ["Invalid SMU Channel"], [], []⟩) := by
  simpa using svmi_invalid_channel_no_write "3" "1.5" "0.1" 0
    (fun _ => (none : Option ℕ)) ⟨[], [], [], []⟩ (by decide) (by decide)
